import Mathlib

/-
Verification of the basket news tasks (news/tasks.py, news/models.py).

This file is a shallow embedding of the subscription-reconciliation logic:

* Python strings are Lean `String`s.  The handful of Python string
  operations the code uses (`split(',')`, `strip()`, `lower()`, `upper()`,
  slicing `[:2]`, substring containment `in`) are re-implemented here as
  structural functions on `String.data` so that every definition reduces
  inside the kernel.
* Python dicts sent to the vendor ("records") are association lists built
  in write order; a later write to the same key shadows an earlier one
  (lookup is last-wins, see `dget`).
* Python sets are modelled as lists up to membership; where the source
  iterates over a set (whose order CPython does not specify) the model
  fixes a deterministic order, and every theorem below is stated at the
  level of membership / emptiness so that it does not depend on that
  choice.
* Side effects (vendor upserts and message sends) are collected in an
  `Eff` list; exceptions become `Except TaskErr`.  When the source raises
  after already performing an effect, the model returns only the error —
  no theorem below inspects effects of failing runs.
* `news/newsletters.py` and `news/views.py` are not among the sources;
  the registry lookups (`newsletter_field`, `newsletter_slugs`,
  `is_supported_newsletter_language`) and the fetched user record are
  modelled from the spec, as marked in their doc comments.
-/

set_option maxHeartbeats 1000000

set_option linter.unusedVariables false

/-- Action constants SUBSCRIBE / UNSUBSCRIBE / SET of news/tasks.py
(the source represents them as strings; the model uses an inductive type). -/
inductive ActionType where
  | SUBSCRIBE
  | UNSUBSCRIBE
  | SET
  deriving DecidableEq, Repr

/-- Newsletter definition, from the `Newsletter` model of news/models.py
(fields not consulted by the reconciliation code are omitted;
`languages` models the comma-separated `languages` field after the
`language_list` split). -/
structure NewsletterDef where
  slug : String
  vendor_id : String
  requires_double_optin : Bool
  active : Bool
  welcome : String
  confirm_message : String
  languages : List String
  deriving DecidableEq, Repr

/-- Modelled from the spec: news/newsletters.py is not among the sources.
Per section 4.1, `vendor_field_name(slug)` returns the vendor field name for a
known slug and None for an unknown slug; per news/models.py the vendor field
name is the newsletter's `vendor_id`. -/
def newsletter_field (reg : List NewsletterDef) (nl : String) : Option String :=
  (reg.find? (fun n => n.slug == nl)).map (fun n => n.vendor_id)

/-- Modelled from the spec: news/newsletters.py is not among the sources.
Per section 4.2 the full-registry fallback uses "all known active slugs". -/
def newsletter_slugs (reg : List NewsletterDef) : List String :=
  (reg.filter (fun n => n.active)).map (fun n => n.slug)

/-- Modelled from the spec: news/newsletters.py is not among the sources.
A language is supported when its 2-letter code matches the 2-letter code of
a language declared by some newsletter in the registry (section 4.1:
the registry records each newsletter's supported language set). -/
def is_supported_newsletter_language (reg : List NewsletterDef) (code : String) : Bool :=
  reg.any (fun n => n.languages.any (fun l => l.take 2 == code.take 2))

/-- Python truthiness test `if name:` on the result of `newsletter_field`:
true iff the slug resolves to a non-empty vendor field name. -/
def truthy_field (reg : List NewsletterDef) (nl : String) : Bool :=
  ((newsletter_field reg nl).getD "") != ""

/-- Python `s.split(',')` (kernel-reducible re-implementation):
splits at every comma, so the empty string yields `[""]`. -/
def split_comma_aux : List Char → List Char → List String
  | [], acc => [String.mk acc.reverse]
  | c :: cs, acc =>
    if c = ',' then String.mk acc.reverse :: split_comma_aux cs []
    else split_comma_aux cs (c :: acc)

/-- Python `s.split(',')`. -/
def split_comma (s : String) : List String := split_comma_aux s.data []

/-- Python `s.strip()` (kernel-reducible): drops whitespace at both ends. -/
def strip_str (s : String) : String :=
  String.mk (((s.data.dropWhile Char.isWhitespace).reverse.dropWhile
    Char.isWhitespace).reverse)

/-- Python `s.lower()` (kernel-reducible). -/
def lower_str (s : String) : String := String.mk (s.data.map Char.toLower)

/-- Python `s.upper()` (kernel-reducible). -/
def upper_str (s : String) : String := String.mk (s.data.map Char.toUpper)

/-- Python `s[:n]` (kernel-reducible). -/
def take_str (s : String) (n : Nat) : String := String.mk (s.data.take n)

/-- Python `needle in hay` substring containment (kernel-reducible). -/
def contains_sub (hay needle : String) : Bool := decide (List.IsInfix needle.data hay.data)

/-- Python `repr` of a quote-free string: wraps it in single quotes
(escaping is not modelled; all ids in this development are quote-free). -/
def py_repr (s : String) : String := "'" ++ s ++ "'"

/-- Last-wins lookup in a record association list (Python dict read). -/
def dget (d : List (String × String)) (k : String) : String :=
  ((d.reverse.find? (fun kv => kv.1 == k)).map (fun kv => kv.2)).getD ""

/-- Guard of the subscribe loop of `parse_newsletters`
(news/tasks.py lines 223-229): the slug resolves to a truthy vendor field
and `cur_newsletters is None or nl not in cur_newsletters`. -/
def subscribe_cond (reg : List NewsletterDef) (cur_newsletters : Option (List String))
    (nl : String) : Bool :=
  truthy_field reg nl &&
    (match cur_newsletters with
     | none => true
     | some cur => decide (nl ∉ cur))

/-- Guard of the unsubscribe loop of `parse_newsletters`
(news/tasks.py lines 247-253): the slug resolves to a truthy vendor field
and `cur_newsletters is None or nl in cur_newsletters`. -/
def unsubscribe_cond (reg : List NewsletterDef) (cur_newsletters : Option (List String))
    (nl : String) : Bool :=
  truthy_field reg nl &&
    (match cur_newsletters with
     | none => true
     | some cur => decide (nl ∈ cur))

/-- The `unsubs` base set of the SET branch (news/tasks.py lines 234-242):
current minus targets when the current set is known, all known slugs minus
targets when it is unknown. -/
def set_unsubs (reg : List NewsletterDef) (newsletters : List String) :
    Option (List String) → List String
  | some cur => cur.filter (fun nl => decide (nl ∉ newsletters))
  | none => (newsletter_slugs reg).filter (fun nl => decide (nl ∉ newsletters))

/-- The `to_subscribe` result of `parse_newsletters` (news/tasks.py 221-229). -/
def compute_to_subscribe (reg : List NewsletterDef) (type : ActionType)
    (newsletters : List String) (cur_newsletters : Option (List String)) : List String :=
  if type = ActionType.SUBSCRIBE ∨ type = ActionType.SET then
    newsletters.filter (subscribe_cond reg cur_newsletters)
  else []

/-- The `to_unsubscribe` result of `parse_newsletters` (news/tasks.py 231-253). -/
def compute_to_unsubscribe (reg : List NewsletterDef) (type : ActionType)
    (newsletters : List String) (cur_newsletters : Option (List String)) : List String :=
  if type = ActionType.UNSUBSCRIBE ∨ type = ActionType.SET then
    (if type = ActionType.SET then set_unsubs reg newsletters cur_newsletters
     else newsletters).filter (unsubscribe_cond reg cur_newsletters)
  else []

/-- `parse_newsletters(record, type, newsletters, cur_newsletters)` of
news/tasks.py lines 194-254.  Returns the updated record followed by
`(to_subscribe, to_unsubscribe)`.  The registry and today's date, ambient
in the source (module cache and `date.today()`), are explicit arguments.
Record updates are modelled as appended key/value writes. -/
def parse_newsletters (record : List (String × String)) (type : ActionType)
    (newsletters : List String) (cur_newsletters : Option (List String))
    (reg : List NewsletterDef) (today : String) :
    List (String × String) × List String × List String :=
  let to_subscribe := compute_to_subscribe reg type newsletters cur_newsletters
  let to_unsubscribe := compute_to_unsubscribe reg type newsletters cur_newsletters
  let record := record ++ to_subscribe.flatMap (fun nl =>
    [((newsletter_field reg nl).getD "" ++ "_FLG", "Y"),
     ((newsletter_field reg nl).getD "" ++ "_DATE", today)])
  let record := record ++ to_unsubscribe.flatMap (fun nl =>
    [((newsletter_field reg nl).getD "" ++ "_FLG", "N"),
     ((newsletter_field reg nl).getD "" ++ "_DATE", today)])
  (record, to_subscribe, to_unsubscribe)

/-- `mogrify_message_id(message_id, lang, format)` of news/tasks.py
lines 560-575. -/
def mogrify_message_id (message_id lang format : String) : String :=
  let result :=
    if lang ≠ "" then take_str (lower_str lang) 2 ++ "_" ++ message_id
    else message_id
  if format = "T" then result ++ "_T" else result

/-- Application of a computed diff to a known current-subscription set:
add to_subscribe, remove to_unsubscribe (membership-level set update). -/
def apply_diff (cur to_subscribe to_unsubscribe : List String) : List String :=
  (cur ++ to_subscribe).filter (fun nl => decide (nl ∉ to_unsubscribe))

/-- A one-newsletter registry used by concrete witnesses. -/
def reg_demo : List NewsletterDef :=
  [{ slug := "mozilla-and-you", vendor_id := "MOZILLA_AND_YOU",
     requires_double_optin := true, active := true, welcome := "",
     confirm_message := "", languages := ["en"] }]

/-- Kinds of task-level exceptions (news/tasks.py): `NewsletterException`
(vendor/connectivity error), `URLError` (connection error),
`BasketError` (fatal, not to be retried), and `py` for any other uncaught
Python exception. -/
inductive TaskErr where
  | newsletter (msg : String)
  | url (msg : String)
  | basket (msg : String)
  | py (msg : String)
  deriving DecidableEq, Repr

/-- The retry decision of the `et_task` wrapper (news/tasks.py lines
172-185): `URLError` and `NewsletterException` are caught and retried;
anything else (in particular `BasketError`) propagates and is not retried. -/
def et_task_retries : TaskErr → Bool
  | .newsletter _ => true
  | .url _ => true
  | .basket _ => false
  | .py _ => false

/-- Outcome of the vendor's `trigger_send` call: success, or a
`NewsletterException` carrying the vendor's message text. -/
inductive VendorResponse where
  | ok
  | error (msg : String)
  deriving DecidableEq, Repr

/-- Message id for the confirmation email (news/tasks.py line 36). -/
def CONFIRMATION_MESSAGE : String := "confirmation_email"

/-- Vendor id of the Firefox OS newsletter (news/tasks.py line 83). -/
def FFOS_VENDOR_ID : String := "FIREFOX_OS"

/-- Vendor id of the Firefox & You newsletter (news/tasks.py line 84). -/
def FFAY_VENDOR_ID : String := "MOZILLA_AND_YOU"

/-- Result of `send_message`: the deny-list cache afterwards, whether the
vendor's trigger-send was invoked, and the raised error if any. -/
structure SendResult where
  cache : List String
  vendor_called : Bool
  result : Except TaskErr Unit

/-- `send_message(message_id, email, token, format)` of news/tasks.py lines
518-557.  The `BAD_MESSAGE_ID_CACHE` (module state) and the vendor's
response are explicit arguments.  If the id is in the deny-list the call
returns immediately; otherwise the vendor is called, and a raised
`NewsletterException` is classified by its message text: "Invalid Customer
Key" caches the id and raises `BasketError`; "There are no valid
subscribers." raises `BasketError` without caching; anything else re-raises
the `NewsletterException`. -/
def send_message (cache : List String) (vendor : VendorResponse)
    (message_id email token format : String) : SendResult :=
  if cache.contains message_id then
    { cache := cache, vendor_called := false, result := .ok () }
  else
    match vendor with
    | .ok => { cache := cache, vendor_called := true, result := .ok () }
    | .error msg =>
      if contains_sub msg "Invalid Customer Key" then
        { cache := message_id :: cache, vendor_called := true,
          result := .error (.basket ("ET says no such message ID: " ++ py_repr message_id)) }
      else if contains_sub msg "There are no valid subscribers." then
        { cache := cache, vendor_called := true,
          result := .error (.basket "ET says: there are no valid subscribers.") }
      else
        { cache := cache, vendor_called := true, result := .error (.newsletter msg) }

/-- A Python value as stored in a FailedTask's JSON args/kwargs. -/
inductive PyVal where
  | str (s : String)
  | num (n : Int)
  | list (xs : List PyVal)
  | dict (d : List (String × PyVal))

/-- `_is_query_dict(arg)` of news/models.py lines 165-170: the value is a
dict all of whose values are lists. -/
def _is_query_dict : PyVal → Bool
  | .dict d => d.all (fun kv => match kv.2 with | .list _ => true | _ => false)
  | _ => false

/-- The `filtered_args` property of news/models.py lines 194-215: arguments
that look like serialized QueryDicts are converted back to plain dicts by
taking the first element of each value list.  `none` models the IndexError
the source raises when such a value list is empty. -/
def filtered_args (args : List PyVal) : Option (List PyVal) :=
  args.mapM (fun arg =>
    if _is_query_dict arg then
      match arg with
      | .dict d =>
        (d.mapM (fun (kv : String × PyVal) =>
          (match kv.2 with
           | .list (v :: _) => some (kv.1, v)
           | _ => none : Option (String × PyVal)))).map PyVal.dict
      | _ => none
    else some arg)

/-- A persisted Failed-operation record (the `FailedTask` model of
news/models.py lines 173-224; the timestamp column is omitted and the
error-detail columns are carried verbatim; none of them is consulted by
`retry`). -/
structure FailedTask where
  task_id : String
  name : String
  args : List PyVal
  kwargs : List (String × PyVal)
  exc : String
  einfo : String

/-- A subtask dispatched by `retry` onto the task queue. -/
structure SubtaskCall where
  name : String
  args : List PyVal
  kwargs : List (String × PyVal)

/-- State touched by `FailedTask.retry`: the task queue and the table of
Failed-operation records. -/
structure RetryState where
  queue : List SubtaskCall
  failed : List FailedTask

/-- `FailedTask.retry` of news/models.py lines 217-224: build a subtask from
the stored name/args/kwargs, dispatch it with `apply_async`, and delete the
record.  Dispatch itself can fail (the `apply_async_ok` flag); the delete
runs only after a successful dispatch, and on any raised error the state is
returned unchanged.  Deletion removes the row with the record's (unique)
task_id. -/
def FailedTask.retry (apply_async_ok : Bool) (s : RetryState) (t : FailedTask) :
    RetryState × Except String Unit :=
  match filtered_args t.args with
  | none => (s, .error "IndexError")
  | some fargs =>
    if apply_async_ok then
      ({ queue := s.queue ++ [{ name := t.name, args := fargs, kwargs := t.kwargs }],
         failed := s.failed.filter (fun r => decide (r.task_id ≠ t.task_id)) },
       .ok ())
    else (s, .error "apply_async failed")

/-- A concrete Failed-operation record used by the C7 witness. -/
def failed_demo : FailedTask :=
  { task_id := "abc-123", name := "news.tasks.update_user",
    args := [PyVal.str "e@x.org"], kwargs := [], exc := "BasketError",
    einfo := "trace" }

/-- Kind tag for a message send issued by the workflow: a welcome message
(`send_welcomes`) or a confirmation notice (`send_confirm_notice`). -/
inductive MsgKind where
  | welcome
  | confirm
  deriving DecidableEq, Repr

/-- A side effect issued against the vendor: an `apply_updates` upsert into
a named database, or a `send_message` request. -/
inductive Eff where
  | applyUpdates (target_et : String) (record : List (String × String))
  | send (kind : MsgKind) (message_id email token format : String)
  deriving DecidableEq, Repr

/-- Whether an effect is a welcome-message send. -/
def Eff.is_welcome_send : Eff → Bool
  | .send MsgKind.welcome _ _ _ _ => true
  | _ => false

/-- Whether a finished `update_user` run issued a send of the given kind. -/
def sent_message_kind (k : MsgKind) : Except TaskErr (Nat × List Eff) → Bool
  | .ok (_, effs) => effs.any (fun e =>
      match e with
      | .send k' _ _ _ _ => decide (k' = k)
      | _ => false)
  | .error _ => false

/-- Modelled from the spec: the user's vendor-side record as returned by
`get_user_data` (news/views.py, not among the sources; spec section 3:
email, token, format preference, language, per-newsletter subscriptions,
master vs pending membership, confirmation status).  The `newsletters` and
`format` keys may be absent from the dict, hence `Option`. -/
structure UserData where
  email : String
  token : String
  master : Bool
  pending : Bool
  confirmed : Bool
  lang : String
  status : String
  newsletters : Option (List String) := none
  format : Option String := none
  deriving DecidableEq, Repr

/-- The POST-data dict handed to `update_user` (news/tasks.py lines
378-387, 424-434, 456): each field is `none` when the key is absent. -/
structure UpdateData where
  country : Option String := none
  lang : Option String := none
  source_url : Option String := none
  format : Option String := none
  newsletters : Option String := none
  trigger_welcome : Option String := none
  deriving DecidableEq, Repr

/-- Return codes of `update_user` (news/tasks.py lines 340-345). -/
def UU_ALREADY_CONFIRMED : Nat := 1

/-- Return code UU_EXEMPT_PENDING (news/tasks.py line 342). -/
def UU_EXEMPT_PENDING : Nat := 2

/-- Return code UU_EXEMPT_NEW (news/tasks.py line 343). -/
def UU_EXEMPT_NEW : Nat := 3

/-- Return code UU_MUST_CONFIRM_PENDING (news/tasks.py line 344). -/
def UU_MUST_CONFIRM_PENDING : Nat := 4

/-- Return code UU_MUST_CONFIRM_NEW (news/tasks.py line 345). -/
def UU_MUST_CONFIRM_NEW : Nat := 5

/-- news/tasks.py line 389: `lang = record.get('LANGUAGE_ISO2', '') or ''`
(the key is present exactly when the POST data carried `lang`). -/
def uu_lang0 (data : UpdateData) : String := data.lang.getD ""

/-- The user_data dict `update_user` works with (news/tasks.py lines
395-420): the fetched record, or the synthesized minimal dict for an
unknown user, with the language override applied when the request carried
a non-empty `lang`. -/
def uu_user_data (data : UpdateData) (email token : String)
    (fetched : Option UserData) : UserData :=
  let base : UserData :=
    match fetched with
    | some ud => ud
    | none =>
      { email := email, token := token, master := false, pending := false,
        confirmed := false, lang := uu_lang0 data, status := "ok" }
  if uu_lang0 data ≠ "" then { base with lang := uu_lang0 data } else base

/-- The HTML/Text format choice (news/tasks.py lines 424-432): from the
submitted `format` (anything upper-casing to a leading 'T' means Text),
else the existing user preference, else 'H'. -/
def uu_fmt (data : UpdateData) (ud : UserData) : String :=
  match data.format with
  | some f => if (upper_str f).data.head? = some 'T' then "T" else "H"
  | none =>
    match ud.format with
    | some f => f
    | none => "H"

/-- news/tasks.py line 434: comma-split of the submitted `newsletters`
string, each entry stripped. -/
def uu_newsletters (data : UpdateData) : List String :=
  (split_comma (data.newsletters.getD "")).map strip_str

/-- The to_subscribe list `update_user` obtains from `parse_newsletters`
(news/tasks.py lines 436-444). -/
def uu_to_subscribe (reg : List NewsletterDef) (data : UpdateData)
    (email token : String) (type : ActionType) (fetched : Option UserData) :
    List String :=
  compute_to_subscribe reg type (uu_newsletters data)
    (uu_user_data data email token fetched).newsletters

/-- The confirmation exemption (news/tasks.py lines 450-452): `optin`, or
some newsletter among to_subscribe has `requires_double_optin=False`. -/
def uu_exempt (reg : List NewsletterDef) (data : UpdateData)
    (email token : String) (type : ActionType) (optin : Bool)
    (fetched : Option UserData) : Bool :=
  optin || reg.any (fun n =>
    decide (n.slug ∈ uu_to_subscribe reg data email token type fetched) &&
    !n.requires_double_optin)

/-- news/tasks.py lines 454-457: welcomes are sent when `trigger_welcome`
is absent or 'Y' and the action is SUBSCRIBE. -/
def uu_should_send_welcomes (data : UpdateData) (type : ActionType) : Bool :=
  (data.trigger_welcome.getD "Y") == "Y" && decide (type = ActionType.SUBSCRIBE)

/-- The base vendor record (news/tasks.py lines 371-387): the fixed fields
plus the optional country/lang/source_url fields (the source iterates a
dict of the three extras; the model fixes that order). -/
def uu_record_base (data : UpdateData) (email token gmtnow : String) :
    List (String × String) :=
  [("EMAIL_ADDRESS_", email), ("TOKEN", token),
   ("EMAIL_PERMISSION_STATUS_", "I"), ("MODIFIED_DATE_", gmtnow)] ++
  (match data.country with | some v => [("COUNTRY_", v)] | none => []) ++
  (match data.lang with | some v => [("LANGUAGE_ISO2", v)] | none => []) ++
  (match data.source_url with | some v => [("SOURCE_URL", v)] | none => [])

/-- The record after the format step (news/tasks.py lines 424-427):
`EMAIL_FORMAT_` is written only when the call submitted a format. -/
def uu_record_fmt (data : UpdateData) (email token gmtnow : String)
    (ud : UserData) : List (String × String) :=
  uu_record_base data email token gmtnow ++
  (match data.format with
   | some _ => [("EMAIL_FORMAT_", uu_fmt data ud)]
   | none => [])

/-- The record after `parse_newsletters` set the per-newsletter flags
(news/tasks.py lines 442-444). -/
def uu_record (reg : List NewsletterDef) (data : UpdateData)
    (email token gmtnow today : String) (type : ActionType)
    (fetched : Option UserData) : List (String × String) :=
  (parse_newsletters
    (uu_record_fmt data email token gmtnow (uu_user_data data email token fetched))
    type (uu_newsletters data)
    (uu_user_data data email token fetched).newsletters reg today).1

/-- Set-insertion into the dedup accumulator of `send_welcomes`
(the source uses a Python set; the model keeps insertion order). -/
def insert_unique (l : List String) (x : String) : List String :=
  if x ∈ l then l else l ++ [x]

/-- `send_welcomes(user_data, newsletter_slugs, format)` of news/tasks.py
lines 611-657: nothing is sent for an empty slug list; the Firefox OS
welcome suppresses the Firefox & You one; newsletters with a blank welcome
are skipped; the user's 2-letter language falls back to "en" when the
newsletter does not support it; resolved ids are deduplicated before
sending.  `user_data.get('lang', 'en')` is modelled by the always-present
`lang` field. -/
def send_welcomes (reg : List NewsletterDef) (user_data : UserData)
    (slugs : List String) (format : String) : List Eff :=
  if slugs = [] then []
  else
    let newsletters := reg.filter (fun n => decide (n.slug ∈ slugs))
    let newsletters :=
      if newsletters.any (fun n => n.vendor_id == FFOS_VENDOR_ID) then
        newsletters.filter (fun n => !(n.vendor_id == FFAY_VENDOR_ID))
      else newsletters
    let welcomes_to_send := newsletters.foldl (fun acc n =>
      let welcome := strip_str n.welcome
      if welcome = "" then acc
      else
        let languages := n.languages.map (fun l => lower_str (take_str l 2))
        let lang_code0 := lower_str (take_str user_data.lang 2)
        let lang_code := if lang_code0 ∈ languages then lang_code0 else "en"
        insert_unique acc (mogrify_message_id welcome lang_code format)) []
    welcomes_to_send.map (fun w =>
      Eff.send MsgKind.welcome w user_data.email user_data.token format)

/-- news/tasks.py lines 590-591: default the confirmation language to
English when none is known. -/
def confirm_lang (lang : String) : String := if lang = "" then "en" else lang

/-- news/tasks.py lines 598-605: the first newsletter among the given slugs
with a custom confirmation message supplies the id, else the default
`CONFIRMATION_MESSAGE` (queryset order modelled by registry order). -/
def confirm_welcome_id (reg : List NewsletterDef) (slugs : List String) : String :=
  match (reg.filter (fun n =>
      decide (n.slug ∈ slugs) && decide (n.confirm_message ≠ ""))).head? with
  | some n => n.confirm_message
  | none => CONFIRMATION_MESSAGE

/-- `send_confirm_notice(email, token, lang, format, newsletter_slugs)` of
news/tasks.py lines 578-608: raises `BasketError` for an unsupported
language, otherwise sends the mogrified confirmation message. -/
def send_confirm_notice (reg : List NewsletterDef) (email token lang format : String)
    (slugs : List String) : Except TaskErr (List Eff) :=
  if is_supported_newsletter_language reg (confirm_lang lang) then
    Except.ok [Eff.send MsgKind.confirm
      (mogrify_message_id (confirm_welcome_id reg slugs) (confirm_lang lang) format)
      email token format]
  else
    Except.error (TaskErr.basket
      ("Cannot send confirmation in unsupported language '" ++ confirm_lang lang ++ "'."))

/-- `confirm_user(token, user_data)` of news/tasks.py lines 660-697, as
invoked from `update_user` with the already-fetched user_data dict (the
source's refetch path for a `None` argument is not exercised there): on an
error status raise a retryable `NewsletterException`; an already-confirmed
user is a no-op; a missing email is a fatal `BasketError`; otherwise upsert
the token into the confirmation database and send welcomes for the user's
current newsletters (`user_data['newsletters']` raises KeyError when the
key is absent). -/
def confirm_user (reg : List NewsletterDef) (CONFIRMATION : String) (token : String)
    (user_data : UserData) : Except TaskErr (List Eff) :=
  if user_data.status = "error" then
    Except.error (TaskErr.newsletter "error getting user data")
  else if user_data.confirmed then Except.ok []
  else if user_data.email = "" then
    Except.error (TaskErr.basket "token has no email in ET")
  else
    match user_data.newsletters with
    | none => Except.error (TaskErr.py "KeyError: newsletters")
    | some nls =>
      Except.ok ([Eff.applyUpdates CONFIRMATION [("TOKEN", token)]] ++
        send_welcomes reg user_data nls (user_data.format.getD "H"))

/-- `update_user(data, email, token, created, type, optin)` of news/tasks.py
lines 348-503.  The registry, the two date strings, the three target
database names (settings), and the fetched user record (`get_user_data`,
news/views.py, not among the sources) are explicit arguments.  Returns the
UU_* code and the effects issued; on a raised exception only the error is
returned (effects issued before the raise are not reported).  The
`NewsletterException` message text (a repr of the user_data dict) is
simplified to a fixed string. -/
def update_user (reg : List NewsletterDef) (today gmtnow : String)
    (MASTER OPT_IN CONFIRMATION : String) (data : UpdateData)
    (email token : String) (created : Bool) (type : ActionType) (optin : Bool)
    (fetched : Option UserData) : Except TaskErr (Nat × List Eff) :=
  if (uu_user_data data email token fetched).status ≠ "ok" then
    Except.error (TaskErr.newsletter "Some error with Exact Target")
  else if (uu_user_data data email token fetched).confirmed then
    Except.ok (UU_ALREADY_CONFIRMED,
      [Eff.applyUpdates
        (if (uu_user_data data email token fetched).master then MASTER else OPT_IN)
        (uu_record reg data email token gmtnow today type fetched)] ++
      (if uu_should_send_welcomes data type then
        send_welcomes reg (uu_user_data data email token fetched)
          (uu_to_subscribe reg data email token type fetched)
          (uu_fmt data (uu_user_data data email token fetched))
      else []))
  else if uu_exempt reg data email token type optin fetched then
    if (uu_user_data data email token fetched).pending then
      match confirm_user reg CONFIRMATION
          (uu_user_data data email token fetched).token
          (uu_user_data data email token fetched) with
      | Except.error e => Except.error e
      | Except.ok conf_effs =>
        Except.ok (UU_EXEMPT_PENDING,
          [Eff.applyUpdates OPT_IN
            (uu_record reg data email token gmtnow today type fetched)] ++
          conf_effs)
    else
      Except.ok (UU_EXEMPT_NEW,
        [Eff.applyUpdates MASTER
          (uu_record reg data email token gmtnow today type fetched ++
            [("CREATED_DATE_", gmtnow)])] ++
        (if uu_should_send_welcomes data type then
          send_welcomes reg (uu_user_data data email token fetched)
            (uu_to_subscribe reg data email token type fetched)
            (uu_fmt data (uu_user_data data email token fetched))
        else []))
  else
    match send_confirm_notice reg email token
        (uu_user_data data email token fetched).lang
        (uu_fmt data (uu_user_data data email token fetched))
        (uu_to_subscribe reg data email token type fetched) with
    | Except.error e => Except.error e
    | Except.ok sends =>
      Except.ok
        ((if (uu_user_data data email token fetched).pending then UU_MUST_CONFIRM_PENDING
          else UU_MUST_CONFIRM_NEW),
         [Eff.applyUpdates OPT_IN
           (if (uu_user_data data email token fetched).pending then
              uu_record reg data email token gmtnow today type fetched
            else
              uu_record reg data email token gmtnow today type fetched ++
                [("CREATED_DATE_", gmtnow),
                 ("SubscriberKey",
                  dget (uu_record reg data email token gmtnow today type fetched) "TOKEN"),
                 ("EmailAddress",
                  dget (uu_record reg data email token gmtnow today type fetched)
                    "EMAIL_ADDRESS_")])] ++
         sends)

/-- The outcome decision table of spec section 4.3, written from the
claim's wording and keyed on (confirmed, exempt, pending), to be compared
with the branching of `update_user`. -/
def decision_table (confirmed exempt pending : Bool) : Nat :=
  if confirmed then UU_ALREADY_CONFIRMED
  else if exempt then
    (if pending then UU_EXEMPT_PENDING else UU_EXEMPT_NEW)
  else
    (if pending then UU_MUST_CONFIRM_PENDING else UU_MUST_CONFIRM_NEW)

/-- An empty POST-data dict used by concrete workflow witnesses. -/
def data_demo : UpdateData := {}

/-! Theorems. -/

/-- The diff part of `parse_newsletters` is the pair of the two computed lists. -/
lemma parse_newsletters_snd (record : List (String × String)) (type : ActionType)
    (newsletters : List String) (cur_newsletters : Option (List String))
    (reg : List NewsletterDef) (today : String) :
    (parse_newsletters record type newsletters cur_newsletters reg today).2 =
      (compute_to_subscribe reg type newsletters cur_newsletters,
       compute_to_unsubscribe reg type newsletters cur_newsletters) := rfl

lemma subscribe_cond_some {reg : List NewsletterDef} {cur : List String} {nl : String} :
    subscribe_cond reg (some cur) nl = true ↔
      truthy_field reg nl = true ∧ nl ∉ cur := by
  simp [subscribe_cond]

lemma subscribe_cond_none {reg : List NewsletterDef} {nl : String} :
    subscribe_cond reg none nl = true ↔ truthy_field reg nl = true := by
  simp [subscribe_cond]

lemma unsubscribe_cond_some {reg : List NewsletterDef} {cur : List String} {nl : String} :
    unsubscribe_cond reg (some cur) nl = true ↔
      truthy_field reg nl = true ∧ nl ∈ cur := by
  simp [unsubscribe_cond]

lemma unsubscribe_cond_none {reg : List NewsletterDef} {nl : String} :
    unsubscribe_cond reg none nl = true ↔ truthy_field reg nl = true := by
  simp [unsubscribe_cond]

lemma compute_to_subscribe_eq {reg : List NewsletterDef} {type : ActionType}
    {newsletters : List String} {cur_newsletters : Option (List String)}
    (h : type = ActionType.SUBSCRIBE ∨ type = ActionType.SET) :
    compute_to_subscribe reg type newsletters cur_newsletters =
      newsletters.filter (subscribe_cond reg cur_newsletters) := by
  rcases h with h | h <;> simp [compute_to_subscribe, h]

lemma compute_to_subscribe_unsub {reg : List NewsletterDef}
    {newsletters : List String} {cur_newsletters : Option (List String)} :
    compute_to_subscribe reg ActionType.UNSUBSCRIBE newsletters cur_newsletters = [] := by
  simp [compute_to_subscribe]

lemma compute_to_unsubscribe_sub {reg : List NewsletterDef}
    {newsletters : List String} {cur_newsletters : Option (List String)} :
    compute_to_unsubscribe reg ActionType.SUBSCRIBE newsletters cur_newsletters = [] := by
  simp [compute_to_unsubscribe]

lemma compute_to_unsubscribe_unsub {reg : List NewsletterDef}
    {newsletters : List String} {cur_newsletters : Option (List String)} :
    compute_to_unsubscribe reg ActionType.UNSUBSCRIBE newsletters cur_newsletters =
      newsletters.filter (unsubscribe_cond reg cur_newsletters) := by
  simp [compute_to_unsubscribe]

lemma compute_to_unsubscribe_set {reg : List NewsletterDef}
    {newsletters : List String} {cur_newsletters : Option (List String)} :
    compute_to_unsubscribe reg ActionType.SET newsletters cur_newsletters =
      (set_unsubs reg newsletters cur_newsletters).filter
        (unsubscribe_cond reg cur_newsletters) := by
  simp [compute_to_unsubscribe]

lemma mem_set_unsubs {reg : List NewsletterDef} {newsletters : List String}
    {cur_newsletters : Option (List String)} {nl : String}
    (h : nl ∈ set_unsubs reg newsletters cur_newsletters) : nl ∉ newsletters := by
  cases cur_newsletters <;> simp [set_unsubs, List.mem_filter] at h <;> exact h.2

/-- C2 counterexample: with an empty registry the target slug "a" is unknown,
so a SUBSCRIBE with "a" absent from the current set does not place "a" in
to_subscribe, contradicting the claim as stated. -/
theorem parse_newsletters_skips_unknown_target :
    "a" ∈ (["a"] : List String) ∧
    "a" ∉ (parse_newsletters [] ActionType.SUBSCRIBE ["a"] (some []) [] "2014-01-01").2.1 := by
  decide

/-- C2 (amended): for actions SUBSCRIBE and SET, every target slug that
resolves to a (non-empty) vendor field and is not present in the current set
(unknown current state treated as not-present) is placed by
`parse_newsletters` in to_subscribe, and is never placed in to_unsubscribe;
target slugs with no vendor field mapping are silently skipped. -/
theorem parse_newsletters_target_subscribed (record : List (String × String))
    (type : ActionType) (reg : List NewsletterDef) (newsletters : List String)
    (cur_newsletters : Option (List String)) (today : String) (nl : String)
    (htype : type = ActionType.SUBSCRIBE ∨ type = ActionType.SET)
    (hmem : nl ∈ newsletters)
    (hfield : truthy_field reg nl = true)
    (hcur : ∀ cur, cur_newsletters = some cur → nl ∉ cur) :
    nl ∈ (parse_newsletters record type newsletters cur_newsletters reg today).2.1 ∧
    nl ∉ (parse_newsletters record type newsletters cur_newsletters reg today).2.2 := by
  have hsnd := parse_newsletters_snd record type newsletters cur_newsletters reg today
  have h1 : (parse_newsletters record type newsletters cur_newsletters reg today).2.1 =
      compute_to_subscribe reg type newsletters cur_newsletters := by rw [hsnd]
  have h2 : (parse_newsletters record type newsletters cur_newsletters reg today).2.2 =
      compute_to_unsubscribe reg type newsletters cur_newsletters := by rw [hsnd]
  rw [h1, h2]
  constructor
  · rw [compute_to_subscribe_eq htype, List.mem_filter]
    refine ⟨hmem, ?_⟩
    cases cur_newsletters with
    | none => exact subscribe_cond_none.mpr hfield
    | some cur => exact subscribe_cond_some.mpr ⟨hfield, hcur cur rfl⟩
  · rcases htype with h | h <;> subst h
    · rw [compute_to_unsubscribe_sub]
      exact List.not_mem_nil nl
    · rw [compute_to_unsubscribe_set]
      intro hin
      rw [List.mem_filter] at hin
      exact mem_set_unsubs hin.1 hmem

/-- C3 counterexample: with an empty registry, the current slug "x" has no
vendor field mapping, so a SET with empty targets leaves to_unsubscribe
empty instead of equal to the current set minus targets. -/
theorem parse_newsletters_set_skips_unknown_current :
    "x" ∈ (["x"] : List String) ∧ ("x" ∉ ([] : List String)) ∧
    "x" ∉ (parse_newsletters [] ActionType.SET [] (some ["x"]) [] "d").2.2 := by
  decide

lemma truthy_field_of_mem_slugs {reg : List NewsletterDef} {nl : String}
    (hw : ∀ n ∈ reg, n.vendor_id ≠ "")
    (h : nl ∈ newsletter_slugs reg) : truthy_field reg nl = true := by
  simp only [newsletter_slugs, List.mem_map, List.mem_filter] at h
  obtain ⟨n, ⟨hn, _⟩, hslug⟩ := h
  have hs : (reg.find? (fun m => m.slug == nl)).isSome := by
    rw [List.find?_isSome]
    exact ⟨n, hn, by simp [hslug]⟩
  obtain ⟨m, hm⟩ := Option.isSome_iff_exists.mp hs
  have hmm := List.mem_of_find?_eq_some hm
  simp only [truthy_field, newsletter_field, hm, Option.map_some', Option.getD_some,
    bne_iff_ne, ne_eq]
  exact hw m hmm

/-- C3 (amended): for action SET, to_unsubscribe is, at the level of
membership: when the current set is known, exactly the slugs of the current
set minus the targets that resolve to a (non-empty) vendor field — slugs
with no vendor field mapping are silently skipped; when the current state is
unknown, exactly all known active newsletter slugs minus the targets,
provided every registered newsletter carries a non-empty vendor field name. -/
theorem parse_newsletters_set_unsubscribe (record : List (String × String))
    (reg : List NewsletterDef) (newsletters : List String) (today : String) :
    (∀ cur nl,
      nl ∈ (parse_newsletters record ActionType.SET newsletters (some cur) reg today).2.2 ↔
        nl ∈ cur ∧ nl ∉ newsletters ∧ truthy_field reg nl = true) ∧
    ((∀ n ∈ reg, n.vendor_id ≠ "") →
      ∀ nl,
        nl ∈ (parse_newsletters record ActionType.SET newsletters none reg today).2.2 ↔
          nl ∈ newsletter_slugs reg ∧ nl ∉ newsletters) := by
  constructor
  · intro cur nl
    have h2 : (parse_newsletters record ActionType.SET newsletters (some cur) reg today).2.2 =
        compute_to_unsubscribe reg ActionType.SET newsletters (some cur) := by
      rw [parse_newsletters_snd]
    rw [h2, compute_to_unsubscribe_set, List.mem_filter]
    simp only [set_unsubs, List.mem_filter, decide_eq_true_iff, unsubscribe_cond_some]
    constructor
    · rintro ⟨⟨hcur, hnot⟩, ⟨hf, _⟩⟩
      exact ⟨hcur, hnot, hf⟩
    · rintro ⟨hcur, hnot, hf⟩
      exact ⟨⟨hcur, hnot⟩, hf, hcur⟩
  · intro hw nl
    have h2 : (parse_newsletters record ActionType.SET newsletters none reg today).2.2 =
        compute_to_unsubscribe reg ActionType.SET newsletters none := by
      rw [parse_newsletters_snd]
    rw [h2, compute_to_unsubscribe_set, List.mem_filter]
    simp only [set_unsubs, List.mem_filter, decide_eq_true_iff, unsubscribe_cond_none]
    constructor
    · rintro ⟨⟨hs, hnot⟩, _⟩
      exact ⟨hs, hnot⟩
    · rintro ⟨hs, hnot⟩
      exact ⟨⟨hs, hnot⟩, truthy_field_of_mem_slugs hw hs⟩

lemma mem_apply_diff {cur s u : List String} {nl : String} :
    nl ∈ apply_diff cur s u ↔ (nl ∈ cur ∨ nl ∈ s) ∧ nl ∉ u := by
  simp only [apply_diff, List.mem_filter, List.mem_append, decide_eq_true_iff]

/-- C9: the diff computation is idempotent — running `parse_newsletters`
again, with the same action and targets, against the current set updated by
the first diff, yields empty to_subscribe and to_unsubscribe. -/
theorem parse_newsletters_idempotent (reg : List NewsletterDef) (type : ActionType)
    (newsletters cur : List String) (record record' : List (String × String))
    (today today' : String) :
    (parse_newsletters record' type newsletters
      (some (apply_diff cur
        (parse_newsletters record type newsletters (some cur) reg today).2.1
        (parse_newsletters record type newsletters (some cur) reg today).2.2))
      reg today').2.1 = [] ∧
    (parse_newsletters record' type newsletters
      (some (apply_diff cur
        (parse_newsletters record type newsletters (some cur) reg today).2.1
        (parse_newsletters record type newsletters (some cur) reg today).2.2))
      reg today').2.2 = [] := by
  have hfst := parse_newsletters_snd record type newsletters (some cur) reg today
  set s1 := compute_to_subscribe reg type newsletters (some cur) with hs1
  set u1 := compute_to_unsubscribe reg type newsletters (some cur) with hu1
  have hp1 : (parse_newsletters record type newsletters (some cur) reg today).2.1 = s1 := by
    rw [hfst]
  have hp2 : (parse_newsletters record type newsletters (some cur) reg today).2.2 = u1 := by
    rw [hfst]
  rw [hp1, hp2]
  set cur' := apply_diff cur s1 u1 with hcur'
  have hsnd' := parse_newsletters_snd record' type newsletters (some cur') reg today'
  have hq1 : (parse_newsletters record' type newsletters (some cur') reg today').2.1 =
      compute_to_subscribe reg type newsletters (some cur') := by rw [hsnd']
  have hq2 : (parse_newsletters record' type newsletters (some cur') reg today').2.2 =
      compute_to_unsubscribe reg type newsletters (some cur') := by rw [hsnd']
  rw [hq1, hq2]
  cases type with
  | SUBSCRIBE =>
    constructor
    · rw [compute_to_subscribe_eq (Or.inl rfl), List.filter_eq_nil_iff]
      intro nl hnl hc
      rw [subscribe_cond_some] at hc
      apply hc.2
      rw [mem_apply_diff]
      have hu : u1 = [] := compute_to_unsubscribe_sub
      by_cases hcin : nl ∈ cur
      · exact ⟨Or.inl hcin, by simp [hu]⟩
      · refine ⟨Or.inr ?_, by simp [hu]⟩
        rw [hs1, compute_to_subscribe_eq (Or.inl rfl), List.mem_filter]
        exact ⟨hnl, subscribe_cond_some.mpr ⟨hc.1, hcin⟩⟩
    · exact compute_to_unsubscribe_sub
  | UNSUBSCRIBE =>
    constructor
    · exact compute_to_subscribe_unsub
    · rw [compute_to_unsubscribe_unsub, List.filter_eq_nil_iff]
      intro nl hnl hc
      rw [unsubscribe_cond_some] at hc
      have hm := mem_apply_diff.mp hc.2
      have hs : s1 = [] := compute_to_subscribe_unsub
      rcases hm.1 with hcin | hsin
      · apply hm.2
        rw [hu1, compute_to_unsubscribe_unsub, List.mem_filter]
        exact ⟨hnl, unsubscribe_cond_some.mpr ⟨hc.1, hcin⟩⟩
      · rw [hs] at hsin
        exact absurd hsin (List.not_mem_nil nl)
  | SET =>
    constructor
    · rw [compute_to_subscribe_eq (Or.inr rfl), List.filter_eq_nil_iff]
      intro nl hnl hc
      rw [subscribe_cond_some] at hc
      apply hc.2
      rw [mem_apply_diff]
      have hnu : nl ∉ u1 := by
        intro hu
        rw [hu1, compute_to_unsubscribe_set, List.mem_filter] at hu
        exact mem_set_unsubs hu.1 hnl
      by_cases hcin : nl ∈ cur
      · exact ⟨Or.inl hcin, hnu⟩
      · refine ⟨Or.inr ?_, hnu⟩
        rw [hs1, compute_to_subscribe_eq (Or.inr rfl), List.mem_filter]
        exact ⟨hnl, subscribe_cond_some.mpr ⟨hc.1, hcin⟩⟩
    · rw [compute_to_unsubscribe_set, List.filter_eq_nil_iff]
      intro nl hnl hc
      rw [unsubscribe_cond_some] at hc
      have hnl' := mem_set_unsubs hnl
      have hm := mem_apply_diff.mp hc.2
      have hcin : nl ∈ cur := by
        rcases hm.1 with hcin | hsin
        · exact hcin
        · rw [hs1, compute_to_subscribe_eq (Or.inr rfl), List.mem_filter] at hsin
          exact absurd hsin.1 hnl'
      apply hm.2
      rw [hu1, compute_to_unsubscribe_set, List.mem_filter]
      refine ⟨?_, unsubscribe_cond_some.mpr ⟨hc.1, hcin⟩⟩
      simp only [set_unsubs, List.mem_filter, decide_eq_true_iff]
      exact ⟨hcin, hnl'⟩

/-- C10: for every action, target list, and current state, the to_subscribe
and to_unsubscribe lists returned by `parse_newsletters` are disjoint. -/
theorem parse_newsletters_disjoint (record : List (String × String))
    (reg : List NewsletterDef) (type : ActionType) (newsletters : List String)
    (cur_newsletters : Option (List String)) (today : String) (nl : String)
    (h : nl ∈ (parse_newsletters record type newsletters cur_newsletters reg today).2.1) :
    nl ∉ (parse_newsletters record type newsletters cur_newsletters reg today).2.2 := by
  have hsnd := parse_newsletters_snd record type newsletters cur_newsletters reg today
  have h1 : (parse_newsletters record type newsletters cur_newsletters reg today).2.1 =
      compute_to_subscribe reg type newsletters cur_newsletters := by rw [hsnd]
  have h2 : (parse_newsletters record type newsletters cur_newsletters reg today).2.2 =
      compute_to_unsubscribe reg type newsletters cur_newsletters := by rw [hsnd]
  rw [h1] at h
  rw [h2]
  cases type with
  | SUBSCRIBE =>
    rw [compute_to_unsubscribe_sub]
    exact List.not_mem_nil nl
  | UNSUBSCRIBE =>
    rw [compute_to_subscribe_unsub] at h
    exact absurd h (List.not_mem_nil nl)
  | SET =>
    rw [compute_to_subscribe_eq (Or.inr rfl), List.mem_filter] at h
    rw [compute_to_unsubscribe_set]
    intro hin
    rw [List.mem_filter] at hin
    exact mem_set_unsubs hin.1 h.1

/-- Witness for C2's amended theorem at a concrete input. -/
theorem parse_newsletters_target_subscribed_witness :
    "mozilla-and-you" ∈
      (parse_newsletters [] ActionType.SUBSCRIBE ["mozilla-and-you"] (some [])
        reg_demo "2014-01-01").2.1 ∧
    "mozilla-and-you" ∉
      (parse_newsletters [] ActionType.SUBSCRIBE ["mozilla-and-you"] (some [])
        reg_demo "2014-01-01").2.2 :=
  parse_newsletters_target_subscribed [] ActionType.SUBSCRIBE reg_demo
    ["mozilla-and-you"] (some []) "2014-01-01" "mozilla-and-you"
    (Or.inl rfl) (by decide) (by decide) (by intro cur hc; cases hc; decide)

/-- Witness for C10's theorem at a concrete input. -/
theorem parse_newsletters_disjoint_witness :
    "mozilla-and-you" ∉
      (parse_newsletters [] ActionType.SUBSCRIBE ["mozilla-and-you"] (some [])
        reg_demo "2014-01-01").2.2 :=
  parse_newsletters_disjoint [] reg_demo ActionType.SUBSCRIBE ["mozilla-and-you"]
    (some []) "2014-01-01" "mozilla-and-you" (by decide)

/-- C8: the message-id resolver is a pure function: prefix with the
lowercased 2-letter language code and an underscore when the language is
non-empty, append the suffix when the format is Text ("T"), otherwise leave
the id unmodified apart from the prefix; with the spec's three examples. -/
theorem mogrify_message_id_spec :
    (∀ message_id lang format : String,
      mogrify_message_id message_id lang format =
        (if lang ≠ "" then take_str (lower_str lang) 2 ++ "_" ++ message_id
         else message_id) ++
        (if format = "T" then "_T" else "")) ∧
    mogrify_message_id "WELCOME" "fr" "H" = "fr_WELCOME" ∧
    mogrify_message_id "WELCOME" "pt" "T" = "pt_WELCOME_T" ∧
    mogrify_message_id "WELCOME" "" "H" = "WELCOME" := by
  refine ⟨fun message_id lang format => ?_, by decide, by decide, by decide⟩
  by_cases hf : format = "T" <;> by_cases hl : lang = "" <;>
    simp [mogrify_message_id, hf, hl]

/-- C5: a send whose message id is already in the deny-list cache issues no
vendor call and returns success, leaving the cache unchanged. -/
theorem send_message_denylist_short_circuit (cache : List String)
    (vendor : VendorResponse) (message_id email token format : String)
    (h : cache.contains message_id = true) :
    send_message cache vendor message_id email token format =
      { cache := cache, vendor_called := false, result := .ok () } := by
  unfold send_message
  rw [if_pos h]

/-- Witness for C5 at a concrete input. -/
theorem send_message_denylist_short_circuit_witness :
    send_message ["fr_WELCOME"] (VendorResponse.error "boom")
        "fr_WELCOME" "e@x.org" "token" "H" =
      { cache := ["fr_WELCOME"], vendor_called := false, result := .ok () } :=
  send_message_denylist_short_circuit ["fr_WELCOME"] (VendorResponse.error "boom")
    "fr_WELCOME" "e@x.org" "token" "H" (by decide)

/-- C6: classification of vendor trigger-send failures by `send_message`
when the id is not deny-listed: an "Invalid Customer Key" error adds the id
to the deny-list and raises a `BasketError`, which the `et_task` wrapper
does not retry; a "There are no valid subscribers." error raises a
`BasketError` without caching; any other vendor error re-raises the
retryable `NewsletterException`. -/
theorem send_message_vendor_error_classification (cache : List String)
    (message_id email token format msg : String)
    (hc : cache.contains message_id = false) :
    (contains_sub msg "Invalid Customer Key" = true →
      (send_message cache (.error msg) message_id email token format).cache =
          message_id :: cache ∧
      (send_message cache (.error msg) message_id email token format).result =
          .error (.basket ("ET says no such message ID: " ++ py_repr message_id)) ∧
      et_task_retries (.basket ("ET says no such message ID: " ++ py_repr message_id)) =
          false) ∧
    (contains_sub msg "Invalid Customer Key" = false →
      contains_sub msg "There are no valid subscribers." = true →
      (send_message cache (.error msg) message_id email token format).cache = cache ∧
      (send_message cache (.error msg) message_id email token format).result =
          .error (.basket "ET says: there are no valid subscribers.") ∧
      et_task_retries (.basket "ET says: there are no valid subscribers.") = false) ∧
    (contains_sub msg "Invalid Customer Key" = false →
      contains_sub msg "There are no valid subscribers." = false →
      (send_message cache (.error msg) message_id email token format).result =
          .error (.newsletter msg) ∧
      (send_message cache (.error msg) message_id email token format).cache = cache ∧
      et_task_retries (.newsletter msg) = true) := by
  have hnc : ¬ (cache.contains message_id = true) := by
    rw [hc]; exact Bool.false_ne_true
  refine ⟨fun h1 => ?_, fun h1 h2 => ?_, fun h1 h2 => ?_⟩
  · unfold send_message
    rw [if_neg hnc]
    dsimp only
    rw [if_pos h1]
    exact ⟨rfl, rfl, rfl⟩
  · unfold send_message
    rw [if_neg hnc]
    dsimp only
    rw [if_neg (by simp [h1]), if_pos h2]
    exact ⟨rfl, rfl, rfl⟩
  · unfold send_message
    rw [if_neg hnc]
    dsimp only
    rw [if_neg (by simp [h1]), if_neg (by simp [h2])]
    exact ⟨rfl, rfl, rfl⟩

/-- Witness for C6 at concrete inputs, one per classification branch. -/
theorem send_message_vendor_error_classification_witness :
    ((send_message [] (.error "Invalid Customer Key: WELC") "WELC" "e" "t" "H").cache =
        "WELC" :: [] ∧
      (send_message [] (.error "Invalid Customer Key: WELC") "WELC" "e" "t" "H").result =
        .error (.basket ("ET says no such message ID: " ++ py_repr "WELC")) ∧
      et_task_retries (.basket ("ET says no such message ID: " ++ py_repr "WELC")) = false) ∧
    ((send_message [] (.error "There are no valid subscribers.") "WELC" "e" "t" "H").cache = [] ∧
      (send_message [] (.error "There are no valid subscribers.") "WELC" "e" "t" "H").result =
        .error (.basket "ET says: there are no valid subscribers.") ∧
      et_task_retries (.basket "ET says: there are no valid subscribers.") = false) ∧
    ((send_message [] (.error "transient glitch") "WELC" "e" "t" "H").result =
        .error (.newsletter "transient glitch") ∧
      (send_message [] (.error "transient glitch") "WELC" "e" "t" "H").cache = [] ∧
      et_task_retries (.newsletter "transient glitch") = true) :=
  ⟨(send_message_vendor_error_classification [] "WELC" "e" "t" "H"
      "Invalid Customer Key: WELC" (by decide)).1 (by decide),
   (send_message_vendor_error_classification [] "WELC" "e" "t" "H"
      "There are no valid subscribers." (by decide)).2.1 (by decide) (by decide),
   (send_message_vendor_error_classification [] "WELC" "e" "t" "H"
      "transient glitch" (by decide)).2.2 (by decide) (by decide)⟩

/-- C7: replaying a Failed-operation record deletes the record exactly when
the re-invocation succeeds: on success the record (by its task_id) is
removed and the rebuilt task is queued; on any failure the state — in
particular the failed-record table — is unchanged. -/
theorem failed_task_retry_delete_only_on_success (apply_async_ok : Bool)
    (s : RetryState) (t : FailedTask) :
    (∀ s', FailedTask.retry apply_async_ok s t = (s', Except.ok ()) →
      s'.failed = s.failed.filter (fun r => decide (r.task_id ≠ t.task_id)) ∧
      s'.queue = s.queue ++
        [{ name := t.name, args := (filtered_args t.args).getD [],
           kwargs := t.kwargs }]) ∧
    (∀ s' e, FailedTask.retry apply_async_ok s t = (s', Except.error e) → s' = s) := by
  constructor
  · intro s' h
    unfold FailedTask.retry at h
    cases hf : filtered_args t.args with
    | none =>
      rw [hf] at h
      simp at h
    | some fargs =>
      rw [hf] at h
      dsimp only at h
      by_cases hb : apply_async_ok = true
      · rw [if_pos hb] at h
        injection h with h1 h2
        subst h1
        simp [hf]
      · rw [if_neg hb] at h
        injection h with h1 h2
        simp at h2
  · intro s' e h
    unfold FailedTask.retry at h
    cases hf : filtered_args t.args with
    | none =>
      rw [hf] at h
      dsimp only at h
      injection h with h1 h2
      exact h1.symm
    | some fargs =>
      rw [hf] at h
      dsimp only at h
      by_cases hb : apply_async_ok = true
      · rw [if_pos hb] at h
        injection h with h1 h2
        simp at h2
      · rw [if_neg hb] at h
        injection h with h1 h2
        exact h1.symm

/-- Witness for C7 at a concrete input: a successful replay deletes the
record and queues the rebuilt task. -/
theorem failed_task_retry_delete_only_on_success_witness :
    ({ queue := [{ name := "news.tasks.update_user",
                   args := [PyVal.str "e@x.org"], kwargs := [] }],
       failed := [] } : RetryState).failed =
      ({ queue := [], failed := [failed_demo] } : RetryState).failed.filter
        (fun r => decide (r.task_id ≠ failed_demo.task_id)) ∧
    ({ queue := [{ name := "news.tasks.update_user",
                   args := [PyVal.str "e@x.org"], kwargs := [] }],
       failed := [] } : RetryState).queue =
      ({ queue := [], failed := [failed_demo] } : RetryState).queue ++
        [{ name := failed_demo.name, args := (filtered_args failed_demo.args).getD [],
           kwargs := failed_demo.kwargs }] :=
  (failed_task_retry_delete_only_on_success true
      { queue := [], failed := [failed_demo] } failed_demo).1
    { queue := [{ name := "news.tasks.update_user",
                  args := [PyVal.str "e@x.org"], kwargs := [] }],
      failed := [] } (by rfl)

/-- C1: every successful `update_user` call returns exactly the code the
decision table assigns to (confirmed, exempt, pending), where exempt is
`optin` or the existence of a to_subscribe slug whose newsletter does not
require double opt-in. -/
theorem update_user_decision_table (reg : List NewsletterDef)
    (today gmtnow MASTER OPT_IN CONFIRMATION : String) (data : UpdateData)
    (email token : String) (created : Bool) (type : ActionType) (optin : Bool)
    (fetched : Option UserData) (code : Nat) (effs : List Eff)
    (h : update_user reg today gmtnow MASTER OPT_IN CONFIRMATION data email token
      created type optin fetched = Except.ok (code, effs)) :
    code = decision_table (uu_user_data data email token fetched).confirmed
      (uu_exempt reg data email token type optin fetched)
      (uu_user_data data email token fetched).pending := by
  unfold update_user at h
  by_cases h0 : (uu_user_data data email token fetched).status ≠ "ok"
  · rw [if_pos h0] at h
    simp at h
  · rw [if_neg h0] at h
    by_cases h1 : (uu_user_data data email token fetched).confirmed = true
    · rw [if_pos h1] at h
      obtain ⟨hc, -⟩ := Prod.mk.inj (Except.ok.inj h)
      rw [← hc]
      simp [decision_table, h1]
    · rw [if_neg h1] at h
      by_cases h2 : uu_exempt reg data email token type optin fetched = true
      · rw [if_pos h2] at h
        by_cases h3 : (uu_user_data data email token fetched).pending = true
        · rw [if_pos h3] at h
          cases hcu : confirm_user reg CONFIRMATION
              (uu_user_data data email token fetched).token
              (uu_user_data data email token fetched) with
          | error e =>
            rw [hcu] at h
            simp at h
          | ok conf_effs =>
            rw [hcu] at h
            dsimp only at h
            obtain ⟨hc, -⟩ := Prod.mk.inj (Except.ok.inj h)
            rw [← hc]
            simp [decision_table, h1, h2, h3]
        · rw [if_neg h3] at h
          obtain ⟨hc, -⟩ := Prod.mk.inj (Except.ok.inj h)
          rw [← hc]
          simp [decision_table, h1, h2, h3]
      · rw [if_neg h2] at h
        cases hsn : send_confirm_notice reg email token
            (uu_user_data data email token fetched).lang
            (uu_fmt data (uu_user_data data email token fetched))
            (uu_to_subscribe reg data email token type fetched) with
        | error e =>
          rw [hsn] at h
          simp at h
        | ok sends =>
          rw [hsn] at h
          dsimp only at h
          obtain ⟨hc, -⟩ := Prod.mk.inj (Except.ok.inj h)
          rw [← hc]
          by_cases h3 : (uu_user_data data email token fetched).pending = true
          · rw [if_pos h3]
            simp [decision_table, h1, h2, h3]
          · rw [if_neg h3]
            simp [decision_table, h1, h2, h3]

/-- Witness for C1 at a concrete input: a new user on SUBSCRIBE with
`optin` lands on EXEMPT_NEW, matching the table at
(confirmed := false, exempt := true, pending := false). -/
theorem update_user_decision_table_witness :
    (UU_EXEMPT_NEW : Nat) =
      decision_table (uu_user_data data_demo "e@x.org" "token" none).confirmed
        (uu_exempt [] data_demo "e@x.org" "token" ActionType.SUBSCRIBE true none)
        (uu_user_data data_demo "e@x.org" "token" none).pending :=
  update_user_decision_table [] "2014-01-01" "NOW" "MASTER_DB" "OPTIN_DB" "CONFIRM_DB"
    data_demo "e@x.org" "token" false ActionType.SUBSCRIBE true none UU_EXEMPT_NEW
    [Eff.applyUpdates "MASTER_DB"
      [("EMAIL_ADDRESS_", "e@x.org"), ("TOKEN", "token"),
       ("EMAIL_PERMISSION_STATUS_", "I"), ("MODIFIED_DATE_", "NOW"),
       ("CREATED_DATE_", "NOW")]] (by rfl)

/-- C4 counterexample: an UNSUBSCRIBE request from an unknown,
non-confirmed user computes an empty to_subscribe set, yet the
MUST_CONFIRM_NEW branch still sends the confirmation notice. -/
theorem update_user_confirm_sent_with_empty_subscribe :
    uu_to_subscribe reg_demo data_demo "e@x.org" "token" ActionType.UNSUBSCRIBE none
        = [] ∧
    sent_message_kind MsgKind.confirm
      (update_user reg_demo "2014-01-01" "NOW" "MASTER_DB" "OPTIN_DB" "CONFIRM_DB"
        data_demo "e@x.org" "token" false ActionType.UNSUBSCRIBE false none) = true :=
  ⟨rfl, rfl⟩

lemma send_welcomes_nil (reg : List NewsletterDef) (ud : UserData) (format : String) :
    send_welcomes reg ud [] format = [] := rfl

lemma is_welcome_send_applyUpdates (t : String) (r : List (String × String)) :
    Eff.is_welcome_send (Eff.applyUpdates t r) = false := rfl

lemma send_confirm_notice_no_welcome {reg : List NewsletterDef}
    {email token lang format : String} {slugs : List String} {sends : List Eff}
    (h : send_confirm_notice reg email token lang format slugs = Except.ok sends) :
    sends.filter Eff.is_welcome_send = [] := by
  unfold send_confirm_notice at h
  by_cases hs : is_supported_newsletter_language reg (confirm_lang lang) = true
  · rw [if_pos hs] at h
    injection h with h'
    subst h'
    rfl
  · rw [if_neg hs] at h
    simp at h

/-- C4 (amended): for a successful `update_user` run whose computed
to_subscribe set is empty, no welcome message is sent in any branch other
than EXEMPT_PENDING (whose confirmation promotion may send welcomes for the
user's pre-existing subscriptions); in particular the must-confirm branches
still send a confirmation notice, contrary to the original claim. -/
theorem update_user_empty_subscribe_no_welcome (reg : List NewsletterDef)
    (today gmtnow MASTER OPT_IN CONFIRMATION : String) (data : UpdateData)
    (email token : String) (created : Bool) (type : ActionType) (optin : Bool)
    (fetched : Option UserData) (code : Nat) (effs : List Eff)
    (hsub : uu_to_subscribe reg data email token type fetched = [])
    (h : update_user reg today gmtnow MASTER OPT_IN CONFIRMATION data email token
      created type optin fetched = Except.ok (code, effs))
    (hcode : code ≠ UU_EXEMPT_PENDING) :
    effs.filter Eff.is_welcome_send = [] := by
  unfold update_user at h
  by_cases h0 : (uu_user_data data email token fetched).status ≠ "ok"
  · rw [if_pos h0] at h
    simp at h
  · rw [if_neg h0] at h
    by_cases h1 : (uu_user_data data email token fetched).confirmed = true
    · rw [if_pos h1] at h
      obtain ⟨-, he⟩ := Prod.mk.inj (Except.ok.inj h)
      rw [← he, hsub, send_welcomes_nil]
      by_cases hw : uu_should_send_welcomes data type = true <;>
        simp [hw, is_welcome_send_applyUpdates]
    · rw [if_neg h1] at h
      by_cases h2 : uu_exempt reg data email token type optin fetched = true
      · rw [if_pos h2] at h
        by_cases h3 : (uu_user_data data email token fetched).pending = true
        · rw [if_pos h3] at h
          cases hcu : confirm_user reg CONFIRMATION
              (uu_user_data data email token fetched).token
              (uu_user_data data email token fetched) with
          | error e =>
            rw [hcu] at h
            simp at h
          | ok conf_effs =>
            rw [hcu] at h
            dsimp only at h
            obtain ⟨hc, -⟩ := Prod.mk.inj (Except.ok.inj h)
            exact absurd hc.symm hcode
        · rw [if_neg h3] at h
          obtain ⟨-, he⟩ := Prod.mk.inj (Except.ok.inj h)
          rw [← he, hsub, send_welcomes_nil]
          by_cases hw : uu_should_send_welcomes data type = true <;>
            simp [hw, is_welcome_send_applyUpdates]
      · rw [if_neg h2] at h
        cases hsn : send_confirm_notice reg email token
            (uu_user_data data email token fetched).lang
            (uu_fmt data (uu_user_data data email token fetched))
            (uu_to_subscribe reg data email token type fetched) with
        | error e =>
          rw [hsn] at h
          simp at h
        | ok sends =>
          rw [hsn] at h
          dsimp only at h
          obtain ⟨-, he⟩ := Prod.mk.inj (Except.ok.inj h)
          rw [← he, List.filter_append, send_confirm_notice_no_welcome hsn]
          simp [is_welcome_send_applyUpdates]

/-- Witness for C4's amended theorem at a concrete input: the EXEMPT_NEW
run of the C1 witness issues no welcome send. -/
theorem update_user_empty_subscribe_no_welcome_witness :
    List.filter Eff.is_welcome_send
      [Eff.applyUpdates "MASTER_DB"
        [("EMAIL_ADDRESS_", "e@x.org"), ("TOKEN", "token"),
         ("EMAIL_PERMISSION_STATUS_", "I"), ("MODIFIED_DATE_", "NOW"),
         ("CREATED_DATE_", "NOW")]] = [] :=
  update_user_empty_subscribe_no_welcome [] "2014-01-01" "NOW" "MASTER_DB" "OPTIN_DB"
    "CONFIRM_DB" data_demo "e@x.org" "token" false ActionType.SUBSCRIBE true none
    UU_EXEMPT_NEW
    [Eff.applyUpdates "MASTER_DB"
      [("EMAIL_ADDRESS_", "e@x.org"), ("TOKEN", "token"),
       ("EMAIL_PERMISSION_STATUS_", "I"), ("MODIFIED_DATE_", "NOW"),
       ("CREATED_DATE_", "NOW")]]
    (by rfl) (by rfl) (by decide)

/-- Witness for C3's amended theorem at a concrete input: with the demo
registry (whose only newsletter has a non-empty vendor field), a SET with
empty targets and unknown current state unsubscribes exactly the active
slugs minus the targets. -/
theorem parse_newsletters_set_unsubscribe_witness :
    ("mozilla-and-you" ∈ (parse_newsletters [] ActionType.SET [] none reg_demo "d").2.2 ↔
      "mozilla-and-you" ∈ newsletter_slugs reg_demo ∧
        "mozilla-and-you" ∉ ([] : List String)) :=
  (parse_newsletters_set_unsubscribe [] reg_demo [] "d").2
    (by decide) "mozilla-and-you"
